import Mathlib

/-!
Shallow embedding of `turbopack/crates/turbo-tasks/src/vc/resolved.rs`: the
`ResolvedVc` typed-reference layer of the turbo-tasks incremental computation
engine, together with spec-modelled interfaces of its external collaborators
(the opaque raw handle, the type-identity registry and the cell storage
engine). Phantom type parameters of the Rust source are erased; capability
interfaces and concrete value types are represented by their numeric
identities, which is exactly the data the runtime cast checks consult.
-/

namespace TurboTasks

/-- Numeric identity of a dynamic capability-interface (value trait). -/
abbrev TraitTypeId := Nat

/-- Numeric identity of a concrete value type. -/
abbrev ValueTypeId := Nat

/-- Modelled from the spec: the type identity registry (external collaborator),
recording in runtime-queryable form which concrete value types implement which
capability-interfaces. -/
structure TypeRegistry where
  implements : ValueTypeId → TraitTypeId → Bool

/-- Modelled from the spec: the opaque cell handle (`RawVc`, external to the
source file), a tagged union of exactly two shapes — context-bound (pending
call identity) and resolved (owning task plus cell index, carrying cached
value-type metadata sufficient for capability queries). -/
inductive RawVc where
  | localCell (executionId : Nat) (localCellId : Nat)
  | taskCell (taskId : Nat) (cellIndex : Nat) (valueTypeId : ValueTypeId)
  deriving DecidableEq, Repr

/-- Does this handle have the resolved (concrete cell) shape? -/
def RawVc.isResolved : RawVc → Bool
  | .taskCell .. => true
  | .localCell .. => false

/-- Modelled from the spec: the synchronous capability query on a resolved
handle (`implementsInterface`), answered from the cached value-type metadata,
never from cell content. -/
def RawVc.resolved_has_trait (raw : RawVc) (reg : TypeRegistry) (traitId : TraitTypeId) : Bool :=
  match raw with
  | .taskCell _ _ vt => reg.implements vt traitId
  | .localCell .. => false

/-- Modelled from the spec: the synchronous value-type query on a resolved
handle (`hasValueType`), comparing the handle's cached value-type identity
against the queried one. -/
def RawVc.resolved_is_type (raw : RawVc) (valueTypeId : ValueTypeId) : Bool :=
  match raw with
  | .taskCell _ _ vt => vt == valueTypeId
  | .localCell .. => false

/-- `Vc<T>` with the phantom type parameter erased: a wrapper around the
opaque raw handle, carrying no other data. -/
structure Vc where
  node : RawVc
  deriving DecidableEq, Repr

/-- `ResolvedVc<T>` (src lines 66-74): a wrapper around `Vc` whose handle is
invariantly in the resolved shape; declared `#[serde(transparent)]`. -/
structure ResolvedVc where
  node : Vc
  deriving DecidableEq, Repr

/-- Modelled from the spec: the cell storage engine (external collaborator) —
the currently executing task, a fresh-cell counter, and the stored contents
addressed by owning task and cell index. Payloads are modelled as naturals. -/
structure StorageEngine where
  currentTask : Nat
  nextIndex : Nat
  content : Nat → Nat → Option Nat

/-- Modelled from the spec: constructing a new concrete cell is a synchronous
local registration with the storage engine: it allocates a fresh cell index in
the current task and stores the payload there, returning a resolved handle. -/
def StorageEngine.newCell (st : StorageEngine) (valueTypeId : ValueTypeId) (payload : Nat) :
    RawVc × StorageEngine :=
  (RawVc.taskCell st.currentTask st.nextIndex valueTypeId,
   { currentTask := st.currentTask
     nextIndex := st.nextIndex + 1
     content := fun t i =>
       if t = st.currentTask ∧ i = st.nextIndex then some payload else st.content t i })

/-- Modelled from the spec: the content read path, looking up the cell's
stored content. Only a resolved handle addresses a concrete cell directly. -/
def RawVc.read (raw : RawVc) (st : StorageEngine) : Option Nat :=
  match raw with
  | .taskCell t i _ => st.content t i
  | .localCell .. => none

/-- The engine state the reference layer runs against: the process-wide type
registry plus the cell storage. -/
structure Engine where
  registry : TypeRegistry
  storage : StorageEngine

/-- Result of running one of the source's `async fn` entry points to
completion: the returned value together with the number of suspension
(await) points it went through. -/
structure AsyncOutcome (α : Type) where
  value : α
  suspensions : Nat
  deriving DecidableEq

/-- Modelled from the spec: the reserved error kind of the fallible cast entry
points, for future cases where capability membership lookup could itself
fail. -/
inductive ResolveTypeError where
  | resolutionFailed (message : String)
  deriving DecidableEq, Repr

/-- Opaque error payload of `anyhow::Result`. -/
abbrev AnyhowError := String

/-- `ResolvedVc::to_resolved` (src 84-86): the body is `Ok(self)` with no
await point — an identity operation. -/
def ResolvedVc.to_resolved (r : ResolvedVc) : AsyncOutcome (Except AnyhowError ResolvedVc) :=
  ⟨.ok r, 0⟩

/-- `ResolvedVc::resolve` (src 88-90): the body is `Ok(self.node)` with no
await point. -/
def ResolvedVc.resolve (r : ResolvedVc) : AsyncOutcome (Except AnyhowError Vc) :=
  ⟨.ok r.node, 0⟩

/-- `ResolvedVc::try_sidecast_sync` (src 238-253): test the target interface
identity against the handle's cached capability metadata; on success rewrap
the identical raw handle under the new type annotation. -/
def ResolvedVc.try_sidecast_sync (r : ResolvedVc) (e : Engine) (k : TraitTypeId) :
    Option ResolvedVc :=
  let raw_vc := r.node.node
  if raw_vc.resolved_has_trait e.registry k then
    some { node := { node := raw_vc } }
  else
    none

/-- `ResolvedVc::try_sidecast` (src 222-228): the body is
`Ok(Self::try_sidecast_sync(this))` with no await point. -/
def ResolvedVc.try_sidecast (r : ResolvedVc) (e : Engine) (k : TraitTypeId) :
    AsyncOutcome (Except ResolveTypeError (Option ResolvedVc)) :=
  ⟨.ok (r.try_sidecast_sync e k), 0⟩

/-- `ResolvedVc::try_downcast_sync` (src 275-281): delegates to
`try_sidecast_sync` ("this is just a more type-safe version of a sidecast"). -/
def ResolvedVc.try_downcast_sync (r : ResolvedVc) (e : Engine) (k : TraitTypeId) :
    Option ResolvedVc :=
  r.try_sidecast_sync e k

/-- `ResolvedVc::try_downcast` (src 261-267): the body is
`Ok(Self::try_downcast_sync(this))` with no await point. -/
def ResolvedVc.try_downcast (r : ResolvedVc) (e : Engine) (k : TraitTypeId) :
    AsyncOutcome (Except ResolveTypeError (Option ResolvedVc)) :=
  ⟨.ok (r.try_downcast_sync e k), 0⟩

/-- `ResolvedVc::try_downcast_type_sync` (src 301-314): test the target value
type identity against the handle's cached value-type metadata; on success
rewrap the identical raw handle. -/
def ResolvedVc.try_downcast_type_sync (r : ResolvedVc) (e : Engine) (k : ValueTypeId) :
    Option ResolvedVc :=
  let raw_vc := r.node.node
  if raw_vc.resolved_is_type k then
    some { node := { node := raw_vc } }
  else
    none

/-- `ResolvedVc::try_downcast_type` (src 288-294): the body is
`Ok(Self::try_downcast_type_sync(this))` with no await point. -/
def ResolvedVc.try_downcast_type (r : ResolvedVc) (e : Engine) (k : ValueTypeId) :
    AsyncOutcome (Except ResolveTypeError (Option ResolvedVc)) :=
  ⟨.ok (r.try_downcast_type_sync e k), 0⟩

/-- Modelled from the spec: `Vc::upcast` (outside the source file) is purely
type-level — zero runtime cost, always succeeds, and the underlying handle is
unchanged. With phantom types erased it is the identity on the wrapper. -/
def Vc.upcast (v : Vc) : Vc := v

/-- `ResolvedVc::upcast` (src 199-207): rewraps `Vc::upcast(this.node)`. -/
def ResolvedVc.upcast (r : ResolvedVc) : ResolvedVc :=
  { node := Vc.upcast r.node }

/-- Modelled from the spec: equality of the wrapped handle is shape-and-identity
based — two handles are equal iff they denote the same pending call or the same
physical cell, never by comparing pointed-to content. -/
def Vc.eqImpl (a b : Vc) : Bool := a.node == b.node

/-- `PartialEq for ResolvedVc` (src 115-122): `self.node == other.node`. -/
def ResolvedVc.eqImpl (a b : ResolvedVc) : Bool := Vc.eqImpl a.node b.node

/-- `Hash for ResolvedVc` (src 126-133): hashes exactly `self.node`. The
hasher is abstracted as an arbitrary function of the handle fed into it. -/
def ResolvedVc.hashWith (h : Vc → Nat) (r : ResolvedVc) : Nat := h r.node

/-- Modelled from the spec: a concrete injective serialization of the opaque
handle's physical identity, standing in for the external serializer. -/
def RawVc.serialize : RawVc → List Nat
  | .localCell e c => [0, e, c]
  | .taskCell t i v => [1, t, i, v]

/-- Modelled from the spec: inverse of the handle serialization. -/
def RawVc.deserialize : List Nat → Option RawVc
  | [0, e, c] => some (.localCell e c)
  | [1, t, i, v] => some (.taskCell t i v)
  | _ => none

/-- Modelled from the spec: `Vc` serializes as exactly its wrapped handle's
serialized form. -/
def Vc.serialize (v : Vc) : List Nat := v.node.serialize

/-- `ResolvedVc` serialization (src 66-67): `#[serde(transparent)]` — exactly
the serialized form of the single `node` field, with no extra framing. -/
def ResolvedVc.serialize (r : ResolvedVc) : List Nat := Vc.serialize r.node

/-- `ResolvedVc` deserialization (src 66-67, transparent): parse the handle
form and rewrap it. -/
def ResolvedVc.deserialize (bytes : List Nat) : Option ResolvedVc :=
  (RawVc.deserialize bytes).map fun raw => { node := { node := raw } }

/-- Modelled from the spec: `Vc::cell` registers a new concrete cell with the
storage engine, synchronously, and wraps the returned resolved handle. -/
def Vc.cell (valueTypeId : ValueTypeId) (inner : Nat) (st : StorageEngine) :
    Vc × StorageEngine :=
  let p := st.newCell valueTypeId inner
  ({ node := p.1 }, p.2)

/-- `ResolvedVc::cell` (src 184-188): wraps `Vc::cell(inner)`. -/
def ResolvedVc.cell (valueTypeId : ValueTypeId) (inner : Nat) (st : StorageEngine) :
    ResolvedVc × StorageEngine :=
  let p := Vc.cell valueTypeId inner st
  ({ node := p.1 }, p.2)

/-- `Default for ResolvedVc` (src 135-144): `Self::cell(Default::default())`;
`innerDefault` stands for `Inner::default()` of the transparent payload. -/
def ResolvedVc.default (valueTypeId : ValueTypeId) (innerDefault : Nat) (st : StorageEngine) :
    ResolvedVc × StorageEngine :=
  ResolvedVc.cell valueTypeId innerDefault st

/-- Reading through a resolved reference delegates to the wrapped handle's
read path (src 146-163 delegate `IntoFuture` to the inner `Vc`). -/
def ResolvedVc.readCell (r : ResolvedVc) (st : StorageEngine) : Option Nat :=
  r.node.node.read st

/-- A sample registry for concrete witnesses: value type 1 implements the
capability-interface with identity 5, and nothing else. -/
def sampleRegistry : TypeRegistry :=
  ⟨fun vt tr => vt == 1 && tr == 5⟩

/-- A sample empty storage engine. -/
def sampleStorage : StorageEngine :=
  ⟨0, 0, fun _ _ => none⟩

/-- A sample engine. -/
def sampleEngine : Engine :=
  ⟨sampleRegistry, sampleStorage⟩

/-- A second sample engine with the same registry but different storage. -/
def sampleEngine2 : Engine :=
  ⟨sampleRegistry, ⟨7, 3, fun _ _ => some 9⟩⟩

/-- A sample resolved reference: cell 0 of task 0, value type 1. -/
def sampleRef : ResolvedVc :=
  ⟨⟨RawVc.taskCell 0 0 1⟩⟩

/-- Equality of resolved references (as implemented) coincides with structural
equality, hence with identity of the wrapped raw handle. -/
theorem eqImpl_eq_true_iff (a b : ResolvedVc) :
    ResolvedVc.eqImpl a b = true ↔ a = b := by
  cases a with
  | mk an =>
    cases b with
    | mk bn =>
      cases an
      cases bn
      simp [ResolvedVc.eqImpl, Vc.eqImpl]

/-- C1: for every resolved reference, the synchronous sidecast to interface
`k` returns a present reference iff the handle's cached capability metadata
contains `k` (the `resolved_has_trait` query succeeds); the result never
depends on stored cell content — engines agreeing on the registry give
identical results. -/
theorem try_sidecast_sync_present_iff_has_trait
    (e₁ e₂ : Engine) (r : ResolvedVc) (k : TraitTypeId)
    (hres : r.node.node.isResolved = true)
    (hreg : e₁.registry = e₂.registry) :
    ((r.try_sidecast_sync e₁ k).isSome = r.node.node.resolved_has_trait e₁.registry k)
    ∧ r.try_sidecast_sync e₁ k = r.try_sidecast_sync e₂ k := by
  constructor
  · unfold ResolvedVc.try_sidecast_sync
    cases h : r.node.node.resolved_has_trait e₁.registry k <;> simp [h]
  · unfold ResolvedVc.try_sidecast_sync
    rw [hreg]

/-- Witness for C1 at a concrete engine, reference, and implemented interface. -/
theorem try_sidecast_sync_present_iff_has_trait_witness :
    ((sampleRef.try_sidecast_sync sampleEngine 5).isSome
        = sampleRef.node.node.resolved_has_trait sampleEngine.registry 5)
    ∧ sampleRef.try_sidecast_sync sampleEngine 5 = sampleRef.try_sidecast_sync sampleEngine2 5 :=
  try_sidecast_sync_present_iff_has_trait sampleEngine sampleEngine2 sampleRef 5 (by decide) rfl

/-- C2: `to_resolved` returns `Ok(self)` and `resolve` returns `Ok` of the
wrapped `Vc`, each with zero suspension points; re-running `to_resolved` on
the result yields the same reference, so resolving an already-resolved
reference is idempotent. -/
theorem to_resolved_identity (r : ResolvedVc) :
    ResolvedVc.to_resolved r = ⟨Except.ok r, 0⟩
    ∧ ResolvedVc.resolve r = ⟨Except.ok r.node, 0⟩
    ∧ (ResolvedVc.to_resolved r).value.bind (fun r2 => (ResolvedVc.to_resolved r2).value)
        = Except.ok r :=
  ⟨rfl, rfl, rfl⟩

/-- C3: upcast always succeeds and leaves the raw handle (and hence the
resolved invariant) unchanged, and downcasting the upcast back to the
original interface — implemented by the handle's concrete type — is present
and returns the original reference. -/
theorem upcast_then_downcast_roundtrip
    (e : Engine) (r : ResolvedVc) (t : TraitTypeId)
    (ht : r.node.node.resolved_has_trait e.registry t = true) :
    (ResolvedVc.upcast r).node.node = r.node.node
    ∧ (ResolvedVc.upcast r).node.node.isResolved = r.node.node.isResolved
    ∧ (ResolvedVc.upcast r).try_downcast_sync e t = some r := by
  refine ⟨rfl, rfl, ?_⟩
  unfold ResolvedVc.try_downcast_sync ResolvedVc.try_sidecast_sync ResolvedVc.upcast Vc.upcast
  simp [ht]

/-- Witness for C3: upcast then downcast at a concrete implemented interface. -/
theorem upcast_then_downcast_roundtrip_witness :
    ((ResolvedVc.upcast sampleRef).node.node = sampleRef.node.node)
    ∧ (ResolvedVc.upcast sampleRef).node.node.isResolved = sampleRef.node.node.isResolved
    ∧ (ResolvedVc.upcast sampleRef).try_downcast_sync sampleEngine 5 = some sampleRef :=
  upcast_then_downcast_roundtrip sampleEngine sampleRef 5 (by decide)

/-- C4: the asynchronous cast entry points always return `Ok` with zero
suspension points, their payload equals the corresponding synchronous
variant's result on the same input, and the reserved `ResolveTypeError` is
never produced. -/
theorem async_casts_never_error (e : Engine) (r : ResolvedVc) (k : TraitTypeId)
    (v : ValueTypeId) :
    r.try_sidecast e k = ⟨Except.ok (r.try_sidecast_sync e k), 0⟩
    ∧ r.try_downcast e k = ⟨Except.ok (r.try_downcast_sync e k), 0⟩
    ∧ r.try_downcast_type e v = ⟨Except.ok (r.try_downcast_type_sync e v), 0⟩
    ∧ (r.try_sidecast e k).value.isOk = true
    ∧ (r.try_downcast e k).value.isOk = true
    ∧ (r.try_downcast_type e v).value.isOk = true :=
  ⟨rfl, rfl, rfl, rfl, rfl, rfl⟩

/-- C5: resolved-reference equality is reflexive, symmetric and transitive,
reduces to identity of the wrapped raw handle (physical-cell identity, never
content), and hashing is consistent with it. -/
theorem eq_equivalence_hash_consistent
    (h : Vc → Nat) (a b c : ResolvedVc)
    (hab : ResolvedVc.eqImpl a b = true) (hbc : ResolvedVc.eqImpl b c = true) :
    ResolvedVc.eqImpl a a = true
    ∧ ResolvedVc.eqImpl a b = ResolvedVc.eqImpl b a
    ∧ ResolvedVc.eqImpl a c = true
    ∧ (ResolvedVc.eqImpl a b = true ↔ a.node.node = b.node.node)
    ∧ ResolvedVc.hashWith h a = ResolvedVc.hashWith h b := by
  have hab2 : a = b := (eqImpl_eq_true_iff a b).mp hab
  have hbc2 : b = c := (eqImpl_eq_true_iff b c).mp hbc
  subst hab2
  subst hbc2
  refine ⟨(eqImpl_eq_true_iff a a).mpr rfl, rfl, (eqImpl_eq_true_iff a a).mpr rfl, ?_, rfl⟩
  simp [(eqImpl_eq_true_iff a a).mpr rfl]

/-- Witness for C5 at concrete equal references and a concrete hasher. -/
theorem eq_equivalence_hash_consistent_witness :
    ResolvedVc.eqImpl sampleRef sampleRef = true
    ∧ ResolvedVc.eqImpl sampleRef sampleRef = ResolvedVc.eqImpl sampleRef sampleRef
    ∧ ResolvedVc.eqImpl sampleRef sampleRef = true
    ∧ (ResolvedVc.eqImpl sampleRef sampleRef = true ↔ sampleRef.node.node = sampleRef.node.node)
    ∧ ResolvedVc.hashWith (fun _ => 37) sampleRef = ResolvedVc.hashWith (fun _ => 37) sampleRef :=
  eq_equivalence_hash_consistent (fun _ => 37) sampleRef sampleRef sampleRef
    (by decide) (by decide)

/-- C6: the synchronous downcast computes exactly the synchronous sidecast on
every input — the two embedded functions are equal (downcast is the same
runtime mechanism with a stricter static bound). -/
theorem try_downcast_sync_eq_try_sidecast_sync (e : Engine) (r : ResolvedVc) (k : TraitTypeId) :
    r.try_downcast_sync e k = r.try_sidecast_sync e k := rfl

/-- C7: for every resolved reference, the synchronous downcast-to-concrete-type
returns a present reference iff the handle's cached value-type identity equals
the target's value-type identity (the `resolved_is_type` query), and the
result never depends on the interface table or on stored cell content — any
two engines give identical results. -/
theorem try_downcast_type_sync_present_iff_is_type
    (e₁ e₂ : Engine) (r : ResolvedVc) (k : ValueTypeId)
    (hres : r.node.node.isResolved = true) :
    ((r.try_downcast_type_sync e₁ k).isSome = r.node.node.resolved_is_type k)
    ∧ r.try_downcast_type_sync e₁ k = r.try_downcast_type_sync e₂ k := by
  constructor
  · unfold ResolvedVc.try_downcast_type_sync
    cases h : r.node.node.resolved_is_type k <;> simp [h]
  · rfl

/-- Witness for C7 at a concrete reference and its own value type. -/
theorem try_downcast_type_sync_present_iff_is_type_witness :
    ((sampleRef.try_downcast_type_sync sampleEngine 1).isSome
        = sampleRef.node.node.resolved_is_type 1)
    ∧ sampleRef.try_downcast_type_sync sampleEngine 1
        = sampleRef.try_downcast_type_sync sampleEngine2 1 :=
  try_downcast_type_sync_present_iff_is_type sampleEngine sampleEngine2 sampleRef 1 (by decide)

/-- C8: each default construction allocates a fresh cell holding the inner
default value: two successive default constructions yield references that the
implemented equality reports unequal, yet reading either yields the inner
default. -/
theorem default_allocates_fresh_cell (st : StorageEngine) (vt innerDefault : Nat) :
    ResolvedVc.eqImpl (ResolvedVc.default vt innerDefault st).1
        (ResolvedVc.default vt innerDefault (ResolvedVc.default vt innerDefault st).2).1 = false
    ∧ (ResolvedVc.default vt innerDefault st).1.readCell
        (ResolvedVc.default vt innerDefault (ResolvedVc.default vt innerDefault st).2).2
        = some innerDefault
    ∧ (ResolvedVc.default vt innerDefault (ResolvedVc.default vt innerDefault st).2).1.readCell
        (ResolvedVc.default vt innerDefault (ResolvedVc.default vt innerDefault st).2).2
        = some innerDefault := by
  refine ⟨?_, ?_, ?_⟩ <;>
    simp [ResolvedVc.default, ResolvedVc.cell, Vc.cell, StorageEngine.newCell,
      ResolvedVc.eqImpl, Vc.eqImpl, ResolvedVc.readCell, RawVc.read]

/-- C9: serializing a resolved reference yields exactly the wrapped handle's
serialized form (transparent, no extra framing), and deserializing that form
reproduces an equal reference. -/
theorem serialize_transparent_roundtrip (r : ResolvedVc) :
    ResolvedVc.serialize r = Vc.serialize r.node
    ∧ ResolvedVc.deserialize (ResolvedVc.serialize r) = some r := by
  refine ⟨rfl, ?_⟩
  cases r with
  | mk n =>
    cases n with
    | mk raw => cases raw <;> rfl

/-- C10: whenever a synchronous cast returns a present result, the returned
reference wraps the identical raw handle as the input, so its equality and
hash behavior coincide with the input's and the resolved-handle invariant is
preserved. -/
theorem casts_preserve_handle (e : Engine) (r s : ResolvedVc) (h : Vc → Nat)
    (k : TraitTypeId) (v : ValueTypeId) :
    ((r.try_sidecast_sync e k).all fun r2 =>
        (r2.node.node == r.node.node)
        && (ResolvedVc.hashWith h r2 == ResolvedVc.hashWith h r)
        && (ResolvedVc.eqImpl r2 s == ResolvedVc.eqImpl r s)
        && (r2.node.node.isResolved == r.node.node.isResolved)) = true
    ∧ ((r.try_downcast_sync e k).all fun r2 =>
        (r2.node.node == r.node.node)
        && (ResolvedVc.hashWith h r2 == ResolvedVc.hashWith h r)
        && (ResolvedVc.eqImpl r2 s == ResolvedVc.eqImpl r s)
        && (r2.node.node.isResolved == r.node.node.isResolved)) = true
    ∧ ((r.try_downcast_type_sync e v).all fun r2 =>
        (r2.node.node == r.node.node)
        && (ResolvedVc.hashWith h r2 == ResolvedVc.hashWith h r)
        && (ResolvedVc.eqImpl r2 s == ResolvedVc.eqImpl r s)
        && (r2.node.node.isResolved == r.node.node.isResolved)) = true := by
  refine ⟨?_, ?_, ?_⟩ <;>
    simp only [ResolvedVc.try_downcast_sync, ResolvedVc.try_sidecast_sync,
      ResolvedVc.try_downcast_type_sync] <;>
    split <;>
    simp [Option.all, ResolvedVc.hashWith, ResolvedVc.eqImpl, Vc.eqImpl]

end TurboTasks
